import Mathlib

/-!
Verification of the natural-language specification of
`openmdao/visualization/htmlpp.py` (class `HtmlPreprocessor`) against a
shallow embedding of its code.

Strings are modelled as `List Char` (Python `str` over ASCII inputs; the
claims only involve ASCII text).  Python `bytes` are modelled as `List Nat`.
The dynamic typing that matters to the claims — `base64.b64encode` and
`zlib.compress` raising `TypeError` when handed a `str` instead of `bytes` —
is modelled by a `PyData` sum type at exactly those call sites.

Recursion in `parse_contents` is made total with a fuel parameter; fuel is
consumed once per processed directive occurrence and once per recursive
descent, so any terminating Python execution is reproduced by a large
enough fuel.  All definitions are structurally recursive so that concrete
runs reduce inside the kernel (`rfl` / `decide`).
-/

namespace Hpp

/-- Python `str`, restricted to the ASCII inputs the claims use. -/
abbrev Str := List Char

/-- Python regex `\s` on ASCII text: the six ASCII whitespace characters. -/
def isPySpace (c : Char) : Bool :=
  c = ' ' || c = '\t' || c = '\n' || c = '\r' || c = '\x0b' || c = '\x0c'

/-- Consume the literal `lit` from the front of `s`, returning the rest. -/
def stripLit (lit s : Str) : Option Str :=
  if lit.isPrefixOf s then some (s.drop lit.length) else none

/-- Whether `needle` occurs as a contiguous substring of `hay`. -/
def hasSubstr (needle : Str) : Str → Bool
  | [] => needle.isEmpty
  | c :: rest => needle.isPrefixOf (c :: rest) || hasSubstr needle rest

/-- Fuel-indexed worker for `replaceAll`; fuel starts at the length of the
subject string, which bounds the number of steps. -/
def replaceAllFuel (pat rep : Str) : Nat → Str → Str
  | _, [] => []
  | 0, s => s
  | fuel + 1, c :: rest =>
    if !pat.isEmpty && pat.isPrefixOf (c :: rest) then
      rep ++ replaceAllFuel pat rep fuel (List.drop (pat.length - 1) rest)
    else
      c :: replaceAllFuel pat rep fuel rest

/-- Python `str.replace(pat, rep)`: replace every non-overlapping occurrence
of `pat`, scanning left to right (line 220 of `htmlpp.py`). -/
def replaceAll (pat rep s : Str) : Str :=
  replaceAllFuel pat rep s.length s

/-- Association-list lookup, modelling Python `dict` membership and access. -/
def alookup {α : Type} : List (Str × α) → Str → Option α
  | [], _ => none
  | (k, v) :: rest, name => if k = name then some v else alookup rest name

/-- The five directive kinds the scanner regex can produce
(`insert|script|style|bin2b64|pyvar`, line 149). -/
inductive DirKind
  | insert
  | script
  | style
  | bin2b64
  | pyvar
  deriving DecidableEq

/-- The closed flag vocabulary of the regex group `(\s+compress|\s+dup)?`. -/
inductive FlagTok
  | compress
  | dup
  deriving DecidableEq

/-- One match of the directive regex: the exact matched span (`group(0)`),
the optional opening comment delimiter (`group(1)`), the kind (`group(2)`),
the argument (`group(3)`) and the optional flag (`group(4)`). -/
structure DirMatch where
  fullMatch : Str
  copen : Option Str
  kind : DirKind
  arg : Str
  flagTok : Option FlagTok
  deriving DecidableEq

/-- The literal text of each directive kind in the regex alternation. -/
def kindLit : DirKind → Str
  | .insert => "insert".data
  | .script => "script".data
  | .style => "style".data
  | .bin2b64 => "bin2b64".data
  | .pyvar => "pyvar".data

/-- Try the kind alternation `(insert|script|style|bin2b64|pyvar)` in the
regex order; the literals are mutually non-prefix, so at most one applies. -/
def tryKind (s : Str) : Option (DirKind × Str) :=
  match stripLit (kindLit .insert) s with
  | some r => some (.insert, r)
  | none =>
  match stripLit (kindLit .script) s with
  | some r => some (.script, r)
  | none =>
  match stripLit (kindLit .style) s with
  | some r => some (.style, r)
  | none =>
  match stripLit (kindLit .bin2b64) s with
  | some r => some (.bin2b64, r)
  | none =>
  match stripLit (kindLit .pyvar) s with
  | some r => some (.pyvar, r)
  | none => none

/-- Match the regex tail `\s*>>(\*/|-->)?`.  Note there is no whitespace
allowance between `>>` and the closing delimiter group, so a closing
`*/` or `-->` is captured only when it immediately follows `>>`.
Returns the consumed text and the rest of the subject. -/
def tryCloseTail (s : Str) : Option (Str × Str) :=
  let w := s.takeWhile isPySpace
  let r := s.dropWhile isPySpace
  match stripLit ">>".data r with
  | none => none
  | some r2 =>
    if ("*/".data).isPrefixOf r2 then
      some (w ++ ">>".data ++ "*/".data, r2.drop 2)
    else if ("-->".data).isPrefixOf r2 then
      some (w ++ ">>".data ++ "-->".data, r2.drop 3)
    else
      some (w ++ ">>".data, r2)

/-- Match the flag alternative `\s+compress` followed by the close tail. -/
def tryCompressAlt (s : Str) : Option (Str × Str) :=
  let w := s.takeWhile isPySpace
  if w.isEmpty then none
  else
    match stripLit "compress".data (s.dropWhile isPySpace) with
    | none => none
    | some r2 =>
      match tryCloseTail r2 with
      | none => none
      | some (t, rest) => some (w ++ "compress".data ++ t, rest)

/-- Match the flag alternative `\s+dup` followed by the close tail. -/
def tryDupAlt (s : Str) : Option (Str × Str) :=
  let w := s.takeWhile isPySpace
  if w.isEmpty then none
  else
    match stripLit "dup".data (s.dropWhile isPySpace) with
    | none => none
    | some r2 =>
      match tryCloseTail r2 with
      | none => none
      | some (t, rest) => some (w ++ "dup".data ++ t, rest)

/-- Match `(\s+compress|\s+dup)?\s*>>(\*/|-->)?`: the flag alternatives in
regex preference order, then the empty alternative.  Returns the consumed
text, the parsed flag and the rest. -/
def tryFlagTail (s : Str) : Option (Str × Option FlagTok × Str) :=
  match tryCompressAlt s with
  | some (t, rest) => some (t, some .compress, rest)
  | none =>
  match tryDupAlt s with
  | some (t, rest) => some (t, some .dup, rest)
  | none =>
  match tryCloseTail s with
  | some (t, rest) => some (t, none, rest)
  | none => none

/-- Backtracking for the greedy group `(\S+)`: try argument lengths from
`k` (initially the maximal non-space run) down to 1, taking the first
length whose continuation parses.  Returns the argument, the flag, the
text consumed after the argument, and the rest. -/
def tryArg (s : Str) : Nat → Option (Str × Option FlagTok × Str × Str)
  | 0 => none
  | k + 1 =>
    match tryFlagTail (s.drop (k + 1)) with
    | some (t, fl, rest) => some (s.take (k + 1), fl, t, rest)
    | none => tryArg s k

/-- Attempt the whole regex at the start of `s` with a fixed opening
comment delimiter (possibly empty): the part
`copen \s* << \s* hpp_ KIND \s+ ARG (flag)? \s* >> (close)?`. -/
def tryWithOpen (copen s : Str) : Option (DirMatch × Str) :=
  match stripLit copen s with
  | none => none
  | some s0 =>
    let w1 := s0.takeWhile isPySpace
    let s1 := s0.dropWhile isPySpace
    match stripLit "<<".data s1 with
    | none => none
    | some s2 =>
      let w2 := s2.takeWhile isPySpace
      let s3 := s2.dropWhile isPySpace
      match stripLit "hpp_".data s3 with
      | none => none
      | some s4 =>
        match tryKind s4 with
        | none => none
        | some (k, s5) =>
          let w3 := s5.takeWhile isPySpace
          let s6 := s5.dropWhile isPySpace
          if w3.isEmpty then none
          else
            let tok := s6.takeWhile (fun c => !isPySpace c)
            match tryArg s6 tok.length with
            | none => none
            | some (arg, fl, t, rest) =>
              some ({ fullMatch := copen ++ w1 ++ "<<".data ++ w2 ++
                        "hpp_".data ++ kindLit k ++ w3 ++ arg ++ t,
                      copen := if copen.isEmpty then none else some copen,
                      kind := k, arg := arg, flagTok := fl }, rest)

/-- Attempt a regex match starting exactly at the head of `s`, trying the
opening-comment alternatives `//`, `/*`, `<!--` and then the empty
alternative, in the regex preference order. -/
def tryAt (s : Str) : Option (DirMatch × Str) :=
  match tryWithOpen "//".data s with
  | some r => some r
  | none =>
  match tryWithOpen "/*".data s with
  | some r => some r
  | none =>
  match tryWithOpen "<!--".data s with
  | some r => some r
  | none => tryWithOpen [] s

/-- Fuel-indexed scan for `re.finditer`: try a match at every position left
to right; on success continue after the matched span (non-overlapping
matches), otherwise advance one character. -/
def findFromFuel : Nat → Str → List DirMatch
  | 0, _ => []
  | _ + 1, [] => []
  | fuel + 1, c :: rest =>
    match tryAt (c :: rest) with
    | some (m, after) => m :: findFromFuel fuel after
    | none => findFromFuel fuel rest

/-- `re.finditer(keyword_regex, contents)` (line 150): every match of the
directive regex in `contents`, in left-to-right order. -/
def findMatches (s : Str) : List DirMatch :=
  findFromFuel s.length s

/-- Values the host application can bind in `var_dict`.  `str`, `bool` and
`int` are the primitive types of line 196 (`float` is omitted: floating
point is outside the embedding and unused by the claims).  Structured
values are represented by integer lists, serialized by the JSON codec. -/
inductive PyVal
  | str (s : Str)
  | bool (b : Bool)
  | int (n : Int)
  | intList (xs : List Int)
  deriving DecidableEq

/-- The test `type(val) in (str, bool, int, float)` of line 196. -/
def isPrimitive : PyVal → Bool
  | .str _ => true
  | .bool _ => true
  | .int _ => true
  | .intList _ => false

/-- Python `str()` of a primitive value (line 197). The `intList` arm is
unreachable from the dispatcher: non-primitives take the JSON branch. -/
def pyStrVal : PyVal → Str
  | .str s => s
  | .bool true => "True".data
  | .bool false => "False".data
  | .int n => (toString n).data
  | .intList _ => []

/-- `json.dumps` on the modelled structured values, with the default
separator `", "` (line 200).  The JSON codec itself is a black-box
structured-value encoder per the spec; the claims exercise only the
branch structure around it. -/
def jsonDumps : PyVal → Str
  | .str s => '"' :: (s ++ ['"'])
  | .bool true => "true".data
  | .bool false => "false".data
  | .int n => (toString n).data
  | .intList [] => "[]".data
  | .intList (x :: xs) =>
    '[' :: ((toString x).data ++
      (xs.map (fun y => ',' :: ' ' :: (toString y).data)).flatten ++ [']'])

/-- A Python runtime value at the call sites where `str` versus `bytes`
matters (`base64.b64encode`, `zlib.compress`). -/
inductive PyData
  | str (s : Str)
  | bytes (b : List Nat)
  deriving DecidableEq

/-- The error taxonomy of the preprocessor.  `unrecognizedDirective` is the
`ValueError` of line 211; the matcher's closed kind enumeration makes it
unreachable, which the embedding reflects by never producing it.
`typeErrorBytesRequired` is the Python `TypeError` raised when
`base64.b64encode` or `zlib.compress` receives a `str`;
`typeErrorNoneNotIterable` is the `TypeError` from `arg in None` when
`var_dict` was never supplied.  `outOfFuel` is the embedding's artifact
for exhausted recursion fuel. -/
inductive HppError
  | fileNotFound (path : Str)
  | outputExists
  | undefinedVariable (name : Str)
  | unrecognizedDirective (kind : Str)
  | typeErrorBytesRequired
  | typeErrorNoneNotIterable
  | outOfFuel
  deriving DecidableEq

/-- The base64 alphabet. -/
def b64alphabet : Str :=
  "ABCDEFGHIJKLMNOPQRSTUVWXYZabcdefghijklmnopqrstuvwxyz0123456789+/".data

/-- One base64 digit. -/
def b64digit (n : Nat) : Char := b64alphabet.getD n '='

/-- `base64.b64encode` over bytes, decoded to ASCII text: standard base64
with `=` padding. -/
def b64encode : List Nat → Str
  | [] => []
  | [a] => [b64digit (a / 4 % 64), b64digit (a % 4 * 16), '=', '=']
  | [a, b] => [b64digit (a / 4 % 64), b64digit (a % 4 * 16 + b / 16),
      b64digit (b % 16 * 4), '=']
  | a :: b :: c :: rest =>
    b64digit (a / 4 % 64) :: b64digit (a % 4 * 16 + b / 16) ::
      b64digit (b % 16 * 4 + c / 64) :: b64digit (c % 64) :: b64encode rest

/-- Modelled from the spec: `zlib.compress`, the black-box stream
compression codec (spec declares DEFLATE out of scope).  Modelled as an
injective byte coding tagged with the zlib header bytes; no claim
depends on its values, only on the `bytes`-not-`str` typing of its
argument. -/
def zlibCompress (bs : List Nat) : List Nat := 120 :: 156 :: bs

/-- `str.encode("utf8")` on the ASCII text the model handles. -/
def utf8Encode (s : Str) : List Nat := s.map Char.toNat

/-- Text read of a file's bytes (`open(path, "r")` then `read()`),
ASCII-decoded. -/
def textOfBytes (bs : List Nat) : Str := bs.map Char.ofNat

/-- Lower-case hex digit. -/
def hexDigitChar (n : Nat) : Char := "0123456789abcdef".data.getD n '0'

/-- Python `repr` of one byte inside a `bytes` literal. -/
def pyReprByte (b : Nat) : Str :=
  if b = 92 then [Char.ofNat 92, Char.ofNat 92]
  else if b = 39 then [Char.ofNat 92, Char.ofNat 39]
  else if b = 9 then [Char.ofNat 92, 't']
  else if b = 10 then [Char.ofNat 92, 'n']
  else if b = 13 then [Char.ofNat 92, 'r']
  else if 32 ≤ b && b ≤ 126 then [Char.ofNat b]
  else [Char.ofNat 92, 'x', hexDigitChar (b / 16 % 16), hexDigitChar (b % 16)]

/-- Python `str()` applied to a `bytes` object: the `b'...'` literal form
(line 110 applies `str` to the raw result of a binary `read()`). -/
def pyReprBytes (bs : List Nat) : Str :=
  'b' :: Char.ofNat 39 :: ((bs.map pyReprByte).flatten ++ [Char.ofNat 39])

/-- `base64.b64encode` as called from Python: it requires a bytes-like
object and raises `TypeError` on a `str`. -/
def b64encodePy : PyData → Except HppError Str
  | .bytes b => .ok (b64encode b)
  | .str _ => .error .typeErrorBytesRequired

/-- `zlib.compress` as called from Python: it requires a bytes-like object
and raises `TypeError` on a `str`. -/
def zlibCompressPy : PyData → Except HppError (List Nat)
  | .bytes b => .ok (zlibCompress b)
  | .str _ => .error .typeErrorBytesRequired

/-- The run context: the `HtmlPreprocessor` configuration fields plus the
filesystem (a map from resolved path to file bytes) and the state of the
output path at write time.  `outputExistsAtWrite` is the value the
re-check of line 231 observes, allowing time-of-check/time-of-use drift
relative to the constructor-time check to be expressed. -/
structure Ctx where
  fs : Str → Option (List Nat)
  startDirname : Str
  startFilename : Str
  outputFilename : Str
  varDict : Option (List (Str × PyVal))
  allowOverwrite : Bool
  outputExistsAtWrite : Bool

/-- POSIX `Path.is_absolute()`. -/
def isAbsolutePath : Str → Bool
  | [] => false
  | c :: _ => c = '/'

/-- Line 100: resolve `filename` against the start directory unless it is
absolute. -/
def resolvePath (ctx : Ctx) (filename : Str) : Str :=
  if isAbsolutePath filename then filename
  else ctx.startDirname ++ '/' :: filename

/-- `HtmlPreprocessor.load_file` (lines 79-115).  The registry `st` is the
`loaded_filenames` list.  In binary mode line 110 applies `str()` to the
raw bytes and line 113 then hands that `str` to `base64.b64encode`,
which raises `TypeError`. -/
def loadFile (ctx : Ctx) (st : List Str) (filename : Str)
    (binary allowDup : Bool) : Except HppError (Str × List Str) :=
  let pathname := resolvePath ctx filename
  if st.contains pathname && !allowDup then .ok ([], st)
  else
    let st1 := st ++ [pathname]
    match ctx.fs pathname with
    | none => .error (.fileNotFound pathname)
    | some bs =>
      if binary then
        match b64encodePy (PyData.str (pyReprBytes bs)) with
        | .error e => .error e
        | .ok t => .ok (t, st1)
      else .ok (textOfBytes bs, st1)

/-- The script wrapper prefix of line 182. -/
def scriptPre : Str := "<script type=\"text/javascript\">\n".data

/-- The script wrapper suffix of line 182. -/
def scriptPost : Str := "\n</script>".data

/-- The style wrapper prefix of line 187. -/
def stylePre : Str := "<style type=\"text/css\">\n".data

/-- The style wrapper suffix of line 188. -/
def stylePost : Str := "\n</style>".data

/-- The match-processing loop of `parse_contents` (lines 148-222), fuelled.
`ms` is the remaining portion of the match list computed once over the
original buffer; `contents` is the current buffer state; `st` the load
registry.  Each arm mirrors one dispatcher branch; the common tail
mirrors lines 213-220 (the `do_compress` step and the buffer-wide
literal replacement of the matched span). -/
def parseGo (ctx : Ctx) : Nat → List DirMatch → List Str → Str →
    Except HppError (Str × List Str)
  | fuel, ms, st, contents =>
    match ms with
    | [] => .ok (contents, st)
    | m :: rest =>
      match fuel with
      | 0 => .error .outOfFuel
      | fuel' + 1 =>
        let step : Except HppError (Str × Bool × List Str) :=
          match m.kind with
          | .insert =>
            match loadFile ctx st m.arg false false with
            | .error e => .error e
            | .ok (c, st1) =>
              match parseGo ctx fuel' (findMatches c) st1 c with
              | .error e => .error e
              | .ok (nc, st2) => .ok (nc, false, st2)
          | .script =>
            match loadFile ctx st m.arg false (m.flagTok == some FlagTok.dup) with
            | .error e => .error e
            | .ok (c, st1) =>
              match parseGo ctx fuel' (findMatches c) st1 c with
              | .error e => .error e
              | .ok (nc, st2) =>
                if nc.isEmpty then .ok (nc, false, st2)
                else .ok (scriptPre ++ nc ++ scriptPost,
                  m.flagTok == some FlagTok.compress, st2)
          | .style =>
            match loadFile ctx st m.arg false false with
            | .error e => .error e
            | .ok (c, st1) =>
              match parseGo ctx fuel' (findMatches c) st1 c with
              | .error e => .error e
              | .ok (nc, st2) => .ok (stylePre ++ nc ++ stylePost, false, st2)
          | .bin2b64 =>
            match loadFile ctx st m.arg true false with
            | .error e => .error e
            | .ok (nc, st1) => .ok (nc, false, st1)
          | .pyvar =>
            match ctx.varDict with
            | none => .error .typeErrorNoneNotIterable
            | some d =>
              match alookup d m.arg with
              | none => .error (.undefinedVariable m.arg)
              | some v =>
                if isPrimitive v then
                  .ok (pyStrVal v, m.flagTok == some FlagTok.compress, st)
                else
                  let raw := jsonDumps v
                  if m.flagTok == some FlagTok.compress then
                    .ok (b64encode (zlibCompress (utf8Encode raw)), false, st)
                  else .ok (raw, false, st)
        match step with
        | .error e => .error e
        | .ok (nc, doCompress, st1) =>
          let tail : Except HppError Str :=
            if doCompress then
              match zlibCompressPy (PyData.str nc) with
              | .error e => .error e
              | .ok cb => b64encodePy (PyData.bytes cb)
            else .ok nc
          match tail with
          | .error e => .error e
          | .ok nc2 =>
            parseGo ctx fuel' rest st1 (replaceAll m.fullMatch nc2 contents)

/-- `HtmlPreprocessor.parse_contents` (lines 130-222): scan the buffer once
for directive matches, then process them in order. -/
def parseContents (ctx : Ctx) (fuel : Nat) (st : List Str) (contents : Str) :
    Except HppError (Str × List Str) :=
  parseGo ctx fuel (findMatches contents) st contents

/-- The load-then-expand pipeline of `run` (line 228). -/
def expandPipeline (ctx : Ctx) (fuel : Nat) : Except HppError Str :=
  match loadFile ctx [] ctx.startFilename false false with
  | .error e => .error e
  | .ok (c, st) =>
    match parseContents ctx fuel st c with
    | .error e => .error e
    | .ok (html, _) => .ok html

/-- `HtmlPreprocessor.run` (lines 224-236).  The second component is the
list of file writes performed: empty when any error propagates, and the
single terminal write otherwise.  The output-exists guard of line 231 is
re-checked between expansion and the write. -/
def run (ctx : Ctx) (fuel : Nat) :
    Except HppError Unit × List (Str × Str) :=
  match expandPipeline ctx fuel with
  | .error e => (.error e, [])
  | .ok html =>
    if ctx.outputExistsAtWrite && !ctx.allowOverwrite then
      (.error .outputExists, [])
    else (.ok (), [(ctx.outputFilename, html)])

/-! ### Concrete fixtures used by the claims -/

/-- ASCII text as file bytes. -/
def strBytes (s : String) : List Nat := s.data.map Char.toNat

/-- A minimal run context: empty filesystem, no variable table. -/
def baseCtx : Ctx :=
  { fs := fun _ => none, startDirname := "/base".data,
    startFilename := "index.html".data, outputFilename := "/out.html".data,
    varDict := none, allowOverwrite := false, outputExistsAtWrite := false }

/-- C1 counterexample context: `v` is bound to text that is itself a
directive. -/
def c1ctx : Ctx :=
  { baseCtx with varDict := some [("v".data, PyVal.str "<<hpp_pyvar w>>".data)] }

/-- C1 counterexample buffer. -/
def c1buf : Str := "<<hpp_pyvar v>>".data

/-- The buffer returned for `c1buf`: the directive text from the value. -/
def c1out : Str := "<<hpp_pyvar w>>".data

/-- A directive carrying the unknown flag `defer`; the scanner regex does
not match it. -/
def c1ubuf : Str := "<<hpp_script util.js defer>>".data

/-- A directive token with the unknown kind `foo`. -/
def c2buf : Str := "<<hpp_foo x>>".data

/-- C3 context: a filesystem holding one binary file. -/
def c3ctx : Ctx :=
  { baseCtx with
    fs := fun p => if p = "/base/img.bin".data then some [137, 80, 78, 71] else none }

/-- C3 buffer: one `bin2b64` directive. -/
def c3buf : Str := "<<hpp_bin2b64 img.bin>>".data

/-- C4 context: `v` bound to the text value `hello`. -/
def c4ctx : Ctx :=
  { baseCtx with varDict := some [("v".data, PyVal.str "hello".data)] }

/-- C5 context: the referenced file exists, so only the unknown flag can
prevent processing. -/
def c5ctx : Ctx :=
  { baseCtx with
    fs := fun p => if p = "/base/f.txt".data then some (strBytes "FFF") else none }

/-- C5 buffer: an insert directive with the unknown flag `bogus`. -/
def c5buf : Str := "<<hpp_insert f.txt bogus>>".data

/-- C6/C10 context: a filesystem holding the text file `x.txt`. -/
def c6ctx : Ctx :=
  { baseCtx with
    fs := fun p => if p = "/base/x.txt".data then some (strBytes "XX") else none }

/-- The resolved path of `x.txt`. -/
def xtxtPath : Str := "/base/x.txt".data

/-- C6 buffer: the same file inserted twice, `dup` on the second. -/
def c6buf : Str := "A|<<hpp_insert x.txt>>|B|<<hpp_insert x.txt dup>>|C".data

/-- What the code produces for `c6buf`: the second occurrence empty. -/
def c6out : Str := "A|XX|B||C".data

/-- What the claim predicts for `c6buf`: both occurrences full. -/
def c6claimed : Str := "A|XX|B|XX|C".data

/-- C6: the same file inserted twice with textually identical spans. -/
def c6ibuf : Str := "A|<<hpp_insert x.txt>>|B|<<hpp_insert x.txt>>|C".data

/-- C6 script context: a filesystem holding the script file `x.js`. -/
def c6sctx : Ctx :=
  { baseCtx with
    fs := fun p => if p = "/base/x.js".data then some (strBytes "SS") else none }

/-- The resolved path of `x.js`. -/
def xjsPath : Str := "/base/x.js".data

/-- C6 buffer: the same script included twice, `dup` on the second. -/
def c6sbuf : Str := "A|<<hpp_script x.js>>|B|<<hpp_script x.js dup>>|C".data

/-- The wrapped full script content. -/
def c6swrap : Str := scriptPre ++ "SS".data ++ scriptPost

/-- What the code produces for `c6sbuf`: both occurrences full. -/
def c6sout : Str :=
  "A|".data ++ c6swrap ++ "|B|".data ++ c6swrap ++ "|C".data

/-- C7 context: a filesystem holding the text file `a.txt`. -/
def c7ctx : Ctx :=
  { baseCtx with
    fs := fun p => if p = "/base/a.txt".data then some (strBytes "A") else none }

/-- The resolved path of `a.txt`. -/
def atxtPath : Str := "/base/a.txt".data

/-- C7 buffer: a directive wrapped in `/* ... */` with the usual spaces. -/
def c7buf : Str := "/* <<hpp_insert a.txt>> */".data

/-- C7 buffer: a directive wrapped in a `//` comment. -/
def c7buf2 : Str := "// <<hpp_insert a.txt>>".data

/-- A buffer with no directive occurrence at all. -/
def c9buf : Str := "hello world".data

/-- C10 counterexample context: `v` bound to the exact text of the second
directive of the buffer. -/
def c10ctx : Ctx :=
  { c6ctx with varDict := some [("v".data, PyVal.str "<<hpp_insert x.txt>>".data)] }

/-- C10 counterexample buffer: a pyvar whose value collides with the
matched span of the insert directive next to it. -/
def c10buf : Str := "<<hpp_pyvar v>>|<<hpp_insert x.txt>>".data

/-- C10 non-collision context: `v` bound to directive text that matches no
span of the buffer. -/
def c10bctx : Ctx :=
  { baseCtx with varDict := some [("v".data, PyVal.str "<<hpp_pyvar w>>".data)] }

/-- C10 non-collision buffer. -/
def c10bbuf : Str := "A|<<hpp_pyvar v>>|B".data

/-- The output for `c10bbuf`: the introduced directive text survives. -/
def c10bout : Str := "A|<<hpp_pyvar w>>|B".data

/-! ### Helper lemmas -/

/-- Processing an empty match list returns the buffer and registry as they
are, whatever the fuel. -/
theorem parseGo_nil (ctx : Ctx) (fuel : Nat) (st : List Str) (contents : Str) :
    parseGo ctx fuel [] st contents = .ok (contents, st) := by
  cases fuel <;> rfl

/-- A buffer in which the scanner finds no match is returned unchanged,
with the registry untouched, for every fuel value. -/
theorem parseContents_no_match (ctx : Ctx) (fuel : Nat) (st : List Str)
    (buf : Str) (h : findMatches buf = []) :
    parseContents ctx fuel st buf = .ok (buf, st) := by
  unfold parseContents
  rw [h]
  exact parseGo_nil ctx fuel st buf

/-! ### Claim theorems -/

/-- C1 counterexample: expanding `<<hpp_pyvar v>>` with `v` bound to the
directive text `<<hpp_pyvar w>>` returns without error, yet the returned
buffer still contains directive syntax — indeed a span the code's own
scanner matches.  This refutes the claim that every successful return
leaves zero unresolved directive occurrences. -/
theorem c1_counterexample :
    parseContents c1ctx 5 [] c1buf = .ok (c1out, []) ∧
    hasSubstr "<<hpp_".data c1out = true ∧
    findMatches c1out ≠ [] :=
  ⟨rfl, rfl, by decide⟩

/-- C1 (amended): the zero-unresolved-occurrence invariant is limited: a
directive carrying an unknown flag is never matched by the scanner, so
`parse_contents` returns such a buffer verbatim — directive syntax and
all — without error; likewise directive text substituted from a pyvar
value is not rescanned.  Here the unknown-flag directive
`<<hpp_script util.js defer>>` survives into the returned buffer for
every context, fuel and registry. -/
theorem c1_amended_residue (ctx : Ctx) (fuel : Nat) (st : List Str) :
    parseContents ctx fuel st c1ubuf = .ok (c1ubuf, st) ∧
    hasSubstr "<<hpp_".data c1ubuf = true :=
  ⟨parseContents_no_match ctx fuel st c1ubuf (by decide), rfl⟩

/-- C2 counterexample: a buffer holding the unknown-kind directive token
`<<hpp_foo x>>` is expanded without any error — no `UnrecognizedDirective`
is raised — and the directive text is still present in the output. -/
theorem c2_counterexample :
    parseContents baseCtx 5 [] c2buf = .ok (c2buf, []) ∧
    hasSubstr "<<hpp_foo".data c2buf = true :=
  ⟨rfl, rfl⟩

/-- C2 (amended): a directive token whose KIND is outside the five-element
enumeration is never matched by the scanner regex, so expansion neither
fails nor rewrites it: the directive text is left verbatim in the
output, for every context, fuel and registry (the dispatcher's
`UnrecognizedDirective` branch is unreachable). -/
theorem c2_amended (ctx : Ctx) (fuel : Nat) (st : List Str) :
    findMatches c2buf = [] ∧
    parseContents ctx fuel st c2buf = .ok (c2buf, st) :=
  ⟨by decide, parseContents_no_match ctx fuel st c2buf (by decide)⟩

/-- C3: resolving a `bin2b64` directive never returns the base64 encoding
of the file's bytes — it always raises `TypeError`, because line 110
converts the raw bytes to their `str()` repr and line 113 then passes
that `str` to `base64.b64encode`, which requires bytes.  Both the
loader call and the whole expansion fail on a concrete binary file. -/
theorem c3_bin2b64_raises :
    loadFile c3ctx [] "img.bin".data true false =
      .error .typeErrorBytesRequired ∧
    parseContents c3ctx 5 [] c3buf = .error .typeErrorBytesRequired :=
  ⟨rfl, rfl⟩

/-- C4: with `v` bound to the text value `hello`, the `compress` flag makes
resolution raise `TypeError` — line 215 hands the `str` replacement to
`zlib.compress`, which requires bytes — while without the flag the
replacement equals `hello` exactly as the claim says. -/
theorem c4_compress_raises :
    parseContents c4ctx 5 [] ("<<hpp_pyvar v compress>>".data) =
      .error .typeErrorBytesRequired ∧
    parseContents c4ctx 5 [] ("<<hpp_pyvar v>>".data) =
      .ok ("hello".data, []) :=
  ⟨rfl, rfl⟩

/-- C5 counterexample: a directive whose flag token is `bogus` is processed
without any error — no `MalformedDirective` exists in the code — and the
directive is left verbatim; the registry stays empty, showing the
referenced file was never even loaded. -/
theorem c5_counterexample :
    parseContents c5ctx 5 [] c5buf = .ok (c5buf, []) ∧
    hasSubstr "bogus".data c5buf = true :=
  ⟨rfl, rfl⟩

/-- C5 (amended): a directive with a flag token outside the closed
vocabulary `compress`/`dup` is simply not matched by the scanner regex:
no error is raised and the directive text survives verbatim in the
returned buffer, for every context, fuel and registry. -/
theorem c5_amended (ctx : Ctx) (fuel : Nat) (st : List Str) :
    findMatches c5buf = [] ∧
    parseContents ctx fuel st c5buf = .ok (c5buf, st) :=
  ⟨by decide, parseContents_no_match ctx fuel st c5buf (by decide)⟩

/-- C6 counterexample: inserting the same file twice with `dup` on the
second occurrence does not give both occurrences the full content — the
`insert` branch never passes the flag to the loader, so the second
occurrence is replaced by the empty string. -/
theorem c6_counterexample :
    parseContents c6ctx 9 [] c6buf = .ok (c6out, [xtxtPath]) ∧
    c6out ≠ c6claimed :=
  ⟨rfl, by decide⟩

/-- C6 (amended): without `dup` the second resolution of a repeated insert
is the empty string (though with textually identical spans the
buffer-wide replacement of the first resolution already fills both
occurrences); the `dup` flag is honored only by `script` directives — on
an `insert` it is ignored and the second occurrence is replaced by the
empty string, while `script` with `dup` gives both occurrences the full
wrapped content. -/
theorem c6_amended :
    parseContents c6ctx 9 [] c6buf = .ok (c6out, [xtxtPath]) ∧
    parseContents c6ctx 9 [] c6ibuf = .ok (c6claimed, [xtxtPath]) ∧
    parseContents c6sctx 9 [] c6sbuf = .ok (c6sout, [xjsPath, xjsPath]) :=
  ⟨rfl, rfl, rfl⟩

/-- C7: the regex allows no whitespace between `>>` and the closing
delimiter group, so for the ordinary spaced form `/* <<...>> */` the
match span stops at `>>` and replacement leaves the residue ` */` in the
output — contradicting the claim (and the code's own docstring) that
the entire comment is replaced.  The `//` form, with no closing
delimiter, is replaced fully. -/
theorem c7_comment_residue :
    parseContents c7ctx 5 [] c7buf = .ok ("A */".data, [atxtPath]) ∧
    parseContents c7ctx 5 [] c7buf2 = .ok ("A".data, [atxtPath]) :=
  ⟨rfl, rfl⟩

/-- C8: the run is all-or-nothing.  Whenever `run` propagates any error,
the write list is empty; when the expansion pipeline succeeds, the
output-exists guard is evaluated immediately before the single terminal
write — a true guard (output present, overwrite not allowed) yields
`OutputExists` and no write, and otherwise exactly the one output file
is written with the expanded content. -/
theorem c8_run_all_or_nothing (ctx : Ctx) (fuel : Nat) :
    (∀ e, (run ctx fuel).fst = .error e → (run ctx fuel).snd = []) ∧
    (∀ html, expandPipeline ctx fuel = .ok html →
      (ctx.outputExistsAtWrite && !ctx.allowOverwrite) = true →
      run ctx fuel = (.error .outputExists, [])) ∧
    (∀ html, expandPipeline ctx fuel = .ok html →
      (ctx.outputExistsAtWrite && !ctx.allowOverwrite) = false →
      run ctx fuel = (.ok (), [(ctx.outputFilename, html)])) := by
  refine ⟨?_, ?_, ?_⟩
  · intro e he
    unfold run at he ⊢
    cases hE : expandPipeline ctx fuel with
    | error e2 => rfl
    | ok html =>
      by_cases hg : (ctx.outputExistsAtWrite && !ctx.allowOverwrite) = true
      · simp [hg]
      · rw [hE] at he
        simp [hg] at he
  · intro html hE hg
    unfold run
    rw [hE]
    simp [hg]
  · intro html hE hg
    unfold run
    rw [hE]
    simp [hg]

/-- C8 witness: on the empty filesystem the start file is missing, `run`
fails with `FileNotFound`, and no write is performed. -/
theorem c8_witness : (run baseCtx 1).snd = [] :=
  (c8_run_all_or_nothing baseCtx 1).1
    (.fileNotFound "/base/index.html".data) rfl

/-- C9: expanding a buffer in which the scanner finds zero directive
occurrences returns the buffer unchanged (and leaves the load registry
untouched), for every context, fuel and registry. -/
theorem c9_no_match_identity (ctx : Ctx) (fuel : Nat) (st : List Str)
    (buf : Str) (h : findMatches buf = []) :
    parseContents ctx fuel st buf = .ok (buf, st) :=
  parseContents_no_match ctx fuel st buf h

/-- C9 witness: the identity holds at the concrete directive-free buffer
`hello world`. -/
theorem c9_witness :
    findMatches c9buf = [] ∧
    parseContents baseCtx 0 [] c9buf = .ok (c9buf, []) :=
  ⟨by decide, c9_no_match_identity baseCtx 0 [] c9buf (by decide)⟩

/-- C10 counterexample: with `v` bound to the exact text of the insert
directive standing next to it, the pyvar-introduced directive text does
NOT survive — the later match's buffer-wide replacement rewrites it too,
so the output `XX|XX` contains no directive syntax at all.  This
refutes the universal claim that directive text inside a variable's
value always survives unexpanded. -/
theorem c10_counterexample :
    parseContents c10ctx 9 [] c10buf = .ok ("XX|XX".data, [xtxtPath]) ∧
    hasSubstr "<<hpp_".data ("XX|XX".data) = false :=
  ⟨rfl, rfl⟩

/-- C10 (amended): the pyvar replacement is substituted verbatim and is not
itself rescanned, so directive text contained in the value survives
unexpanded — unless it textually coincides with the matched span of
another directive occurrence of the original buffer, whose buffer-wide
literal replacement then rewrites the introduced copy as well.  In the
non-collision case the introduced directive survives into the returned
buffer even though the scanner would match it. -/
theorem c10_amended :
    parseContents c10bctx 5 [] c10bbuf = .ok (c10bout, []) ∧
    hasSubstr "<<hpp_pyvar w>>".data c10bout = true ∧
    findMatches c10bout ≠ [] :=
  ⟨rfl, rfl, by decide⟩

end Hpp
